import Mathlib

/-!
Verification of the `GameGeneratorApp` pipeline from `src/main.py`.

The embedding covers the three stages the specification describes:

* the prompt composition performed by `GameGeneratorApp.generate_code`
  (API-key check, prompt check, strip-and-concatenate composition);
* the completion-response callbacks `on_success` / `on_failure` defined
  inside `GameGeneratorApp.call_grok_api`;
* the dynamic executor `GameGeneratorApp.run_game` (empty-artifact check,
  `exec` in a fresh namespace, entry-point lookup, instantiation, mounting).

The `exec` primitive and class instantiation are host-language services, so they
are abstracted as an explicit parameter (`PyExec`): `eval` maps a source
text and an initial namespace either to a final namespace or to a
stringified exception, and `instantiate` maps a class object either to an
instance or to a stringified exception.  All theorems about `run_game`
quantify over this semantics, so they hold for every behaviour of `exec`.
-/

/-- Characters removed by the Python method `str.strip` (ASCII whitespace). -/
def isPySpace (c : Char) : Bool :=
  c = ' ' || c = '\t' || c = '\n' || c = '\r' || c = '\x0b' || c = '\x0c'

/-- Behaviour of the Python call `s.strip()`: drop leading and trailing whitespace. -/
def pyStrip (s : String) : String :=
  String.mk (((s.data.dropWhile isPySpace).reverse.dropWhile isPySpace).reverse)

/-- JSON values, the decoded bodies handed to `UrlRequest` callbacks. -/
inductive Json where
  | null
  | bool (b : Bool)
  | num (n : Int)
  | str (s : String)
  | arr (xs : List Json)
  | obj (fields : List (String × Json))

/-- First binding of a key in the field list of a JSON object. -/
def jsonField : List (String × Json) → String → Option Json
  | [], _ => none
  | (k, v) :: rest, key => if k = key then some v else jsonField rest key

/-- Python subscript `v[key]` with a string key.  Only a `dict` succeeds;
a missing key raises `KeyError` and every other value raises `TypeError`,
both of which `on_success` catches, hence `none`. -/
def pySubscriptStr (v : Json) (key : String) : Option Json :=
  match v with
  | Json.obj fields => jsonField fields key
  | _ => none

/-- Python subscript `v[i]` with a non-negative integer index.  A list
succeeds when in range (`IndexError` otherwise); a Python string returns
the one-character string at that index; a `dict` raises `KeyError` (JSON
object keys are strings), other values raise `TypeError` — all three
exceptions are caught by `on_success`, hence `none`. -/
def pySubscriptNat (v : Json) (i : Nat) : Option Json :=
  match v with
  | Json.arr xs => xs.get? i
  | Json.str s => (s.data.get? i).map (fun c => Json.str (String.mk [c]))
  | _ => none

/-- The access chain `result["choices"][0]["message"]["content"]` of
`on_success`, with `none` standing for any caught
`KeyError`/`IndexError`/`TypeError`. -/
def extractContent (result : Json) : Option Json :=
  (((pySubscriptStr result "choices").bind
      (fun v => pySubscriptNat v 0)).bind
        (fun v => pySubscriptStr v "message")).bind
          (fun v => pySubscriptStr v "content")

/-- Resolution of a 2xx completion response: either the extracted content
(written to the output slot) or the parse-error message. -/
inductive CompletionOutcome where
  | success (content : Json)
  | parseError

/-- The `on_success` callback of `call_grok_api`: extract
`result["choices"][0]["message"]["content"]`; on `KeyError`/`IndexError`/
`TypeError` write `Error: Unable to parse API response` instead. -/
def on_success (result : Json) : CompletionOutcome :=
  match extractContent result with
  | some content => CompletionOutcome.success content
  | none => CompletionOutcome.parseError

/-- The `on_failure` callback of `call_grok_api`.  The source assigns the
plain string literal `Error: API request failed ... req: \x7breq\x7d ...
result: \x7bresult\x7d` — there is no `f` prefix on the literal, so the
brace groups are literal text and the arguments are ignored. -/
def on_failure (req result : String) : String :=
  let _ := req
  let _ := result
  "Error: API request failed\n\nreq: \x7breq\x7d\n\nresult: \x7bresult\x7d"

/-- Spec-side description of the success path: the body has the shape
`\x7b"choices": [\x7b"message": \x7b"content": c\x7d\x7d, ...]\x7d`,
read off the wording of the specification for the `choices[0].message.content` path. -/
def specContentPath (result : Json) : Option Json :=
  match result with
  | Json.obj fields =>
    match jsonField fields "choices" with
    | some (Json.arr (c :: _)) =>
      match c with
      | Json.obj mfields =>
        match jsonField mfields "message" with
        | some (Json.obj cfields) => jsonField cfields "content"
        | _ => none
      | _ => none
    | _ => none
  | _ => none

/-- Opaque runtime objects living in an `exec` namespace (classes,
instances). -/
inductive PyObj where
  | mk (tag : String)
deriving DecidableEq

/-- `namespace.get(name)` / `name in namespace` on the dict passed to
`exec`. -/
def nsLookup : List (String × PyObj) → String → Option PyObj
  | [], _ => none
  | (k, v) :: rest, key => if k = key then some v else nsLookup rest key

/-- The mounted widget tree: the authoring form built by `build`, or a
game widget mounted by `run_game`. -/
inductive AppView where
  | form
  | game (w : PyObj)
deriving DecidableEq

/-- The mutable state of `GameGeneratorApp`: the five text fields and the
currently mounted view. -/
structure AppState where
  api_key_input : String
  prefix_input : String
  suffix_input : String
  prompt_input : String
  code_display : String
  view : AppView
deriving DecidableEq

/-- Host-language execution semantics: `eval code ns` models
`exec(code, ns)` (final namespace, or stringified exception), and
`instantiate cls` models the zero-argument call `cls()` (instance, or
stringified exception). -/
structure PyExec where
  eval : String → List (String × PyObj) → Except String (List (String × PyObj))
  instantiate : PyObj → Except String PyObj

/-- `GameGeneratorApp.run_game`: empty-artifact check, `exec` of the
displayed text in a fresh empty namespace, lookup of
`GeneratedGameWidget`, instantiation and mounting; any exception from
evaluation or instantiation is caught and written to the output slot. -/
def run_game (E : PyExec) (s : AppState) : AppState :=
  if s.code_display = "" then
    { s with code_display := "Error: No valid code to run" }
  else
    match E.eval s.code_display [] with
    | Except.error e => { s with code_display := "Error running code: " ++ e }
    | Except.ok ns =>
      match nsLookup ns "GeneratedGameWidget" with
      | none =>
        { s with code_display :=
            "Error: Generated code does not define GeneratedGameWidget" }
      | some cls =>
        match E.instantiate cls with
        | Except.error e =>
          { s with code_display := "Error running code: " ++ e }
        | Except.ok w => { s with view := AppView.game w }

/-- What one press of the generate button does: either write an error
message to the output slot without sending anything, or call
`call_grok_api` with the composed prompt and the stripped API key. -/
inductive GenAction where
  | err (msg : String)
  | request (full_prompt api_key : String)
deriving DecidableEq

/-- `GameGeneratorApp.generate_code`: strip and check the API key, strip
and check the prompt, then compose
`f"\x7bprefix\x7d \x7bprompt\x7d \x7bsuffix\x7d".strip()` from the
stripped fields and issue the request. -/
def generate_code (s : AppState) : GenAction :=
  let api_key := pyStrip s.api_key_input
  if api_key = "" then
    GenAction.err "Error: Please provide an API key"
  else
    let prompt := pyStrip s.prompt_input
    if prompt = "" then
      GenAction.err "Error: Please enter a prompt"
    else
      GenAction.request
        (pyStrip (pyStrip s.prefix_input ++ " " ++ prompt ++ " " ++
          pyStrip s.suffix_input))
        api_key

/-- Spec-side composition formula:
`trim(trim(prefix) + " " + trim(body) + " " + trim(suffix))`. -/
def composeSpec (pfx body sfx : String) : String :=
  pyStrip (pyStrip pfx ++ " " ++ pyStrip body ++ " " ++ pyStrip sfx)

/-- What one press of the run button does, as a function of the artifact
text alone: write a failure message, or mount a fresh instance. -/
inductive RunAction where
  | failure (msg : String)
  | mount (w : PyObj)
deriving DecidableEq

/-- The action `run_game` takes, computed from the artifact text.  Every
evaluation starts from the empty namespace `[]`, mirroring
`namespace = \x7b\x7d` being rebuilt on each call. -/
def run_action (E : PyExec) (text : String) : RunAction :=
  if text = "" then RunAction.failure "Error: No valid code to run"
  else
    match E.eval text [] with
    | Except.error e => RunAction.failure ("Error running code: " ++ e)
    | Except.ok ns =>
      match nsLookup ns "GeneratedGameWidget" with
      | none =>
        RunAction.failure
          "Error: Generated code does not define GeneratedGameWidget"
      | some cls =>
        match E.instantiate cls with
        | Except.error e => RunAction.failure ("Error running code: " ++ e)
        | Except.ok w => RunAction.mount w

/-- Apply a run action to the app state: failures touch only the output
slot, a mount replaces only the view. -/
def apply_action (s : AppState) : RunAction → AppState
  | RunAction.failure msg => { s with code_display := msg }
  | RunAction.mount w => { s with view := AppView.game w }

/-- Whether this press of the run button fails (empty artifact, evaluation
exception, missing entry point, or instantiation exception). -/
def runFailsB (E : PyExec) (s : AppState) : Bool :=
  match run_action E s.code_display with
  | RunAction.failure _ => true
  | RunAction.mount _ => false

/-- A concrete execution semantics used to witness the universally
quantified theorems: one artifact raises, one defines the entry point,
everything else evaluates to an empty namespace. -/
def demoExec : PyExec where
  eval := fun code _ns =>
    if code = "raise RuntimeError" then
      Except.error "RuntimeError"
    else if code = "class GeneratedGameWidget: pass" then
      Except.ok [("GeneratedGameWidget", PyObj.mk "GeneratedGameWidget")]
    else
      Except.ok []
  instantiate := fun cls =>
    if cls = PyObj.mk "GeneratedGameWidget" then
      Except.ok (PyObj.mk "widget-instance")
    else
      Except.error "object is not callable"

/-- A concrete app state whose artifact defines the entry point. -/
def sGood : AppState :=
  { api_key_input := "xai-key"
    prefix_input := ""
    suffix_input := ""
    prompt_input := "Build a snake game"
    code_display := "class GeneratedGameWidget: pass"
    view := AppView.form }

/-- A concrete app state whose artifact raises during evaluation. -/
def sBoom : AppState :=
  { sGood with code_display := "raise RuntimeError" }

/-- A concrete app state with an empty artifact slot. -/
def sEmptyArtifact : AppState :=
  { sGood with code_display := "" }

/-- An execution semantics under which every evaluation raises, used to
show that an empty artifact never reaches `exec`. -/
def strictExec : PyExec where
  eval := fun _code _ns => Except.error "SyntaxError"
  instantiate := fun _cls => Except.error "object is not callable"

/-- A concrete app state whose artifact evaluates fine but defines no
`GeneratedGameWidget`. -/
def sNoEntry : AppState :=
  { sGood with code_display := "x = 1" }

/-- A concrete app state with a whitespace-only API key and an empty
prompt but non-empty prefix and suffix. -/
def sNoKey : AppState :=
  { api_key_input := "   "
    prefix_input := "Use Kivy."
    suffix_input := "Return only code."
    prompt_input := ""
    code_display := ""
    view := AppView.form }

/-- A concrete app state with a valid API key, a whitespace-only prompt
and non-empty prefix and suffix. -/
def sEmptyBody : AppState :=
  { sNoKey with api_key_input := "xai-key", prompt_input := " \n  " }

/-- The sample 2xx body from the specification:
`\x7b"choices": [\x7b"message": \x7b"content": "X"\x7d\x7d]\x7d`. -/
def exampleBody : Json :=
  Json.obj [("choices",
    Json.arr [Json.obj [("message", Json.obj [("content", Json.str "X")])]])]

/-- `run_game` is `apply_action` of the action computed from the artifact
text; the rest of the state is never consulted. -/
theorem run_game_eq_apply_action (E : PyExec) (s : AppState) :
    run_game E s = apply_action s (run_action E s.code_display) := by
  unfold run_game run_action
  by_cases h : s.code_display = ""
  · simp [h, apply_action]
  · simp only [if_neg h]
    cases E.eval s.code_display [] with
    | error e => rfl
    | ok ns =>
      dsimp only
      cases nsLookup ns "GeneratedGameWidget" with
      | none => rfl
      | some cls =>
        dsimp only
        cases E.instantiate cls with
        | error e => rfl
        | ok w => rfl

/-- The subscript chain of `on_success` succeeds exactly on the
structural `choices[0].message.content` path described by the spec. -/
theorem extractContent_eq_spec (result : Json) :
    extractContent result = specContentPath result := by
  cases result with
  | null => rfl
  | bool b => rfl
  | num n => rfl
  | str s => rfl
  | arr xs => rfl
  | obj fields =>
    cases h : jsonField fields "choices" with
    | none => simp [extractContent, specContentPath, pySubscriptStr, h]
    | some v =>
      cases v with
      | null => simp [extractContent, specContentPath, pySubscriptStr, pySubscriptNat, h]
      | bool b => simp [extractContent, specContentPath, pySubscriptStr, pySubscriptNat, h]
      | num n => simp [extractContent, specContentPath, pySubscriptStr, pySubscriptNat, h]
      | obj ofields => simp [extractContent, specContentPath, pySubscriptStr, pySubscriptNat, h]
      | str s =>
        obtain ⟨data⟩ := s
        cases data with
        | nil =>
          simp [extractContent, specContentPath, pySubscriptStr, pySubscriptNat, h, List.get?]
        | cons c cs =>
          simp [extractContent, specContentPath, pySubscriptStr, pySubscriptNat, h, List.get?]
      | arr ys =>
        cases ys with
        | nil =>
          simp [extractContent, specContentPath, pySubscriptStr, pySubscriptNat, h, List.get?]
        | cons c rest =>
          cases c with
          | null =>
            simp [extractContent, specContentPath, pySubscriptStr, pySubscriptNat, h, List.get?]
          | bool b =>
            simp [extractContent, specContentPath, pySubscriptStr, pySubscriptNat, h, List.get?]
          | num n =>
            simp [extractContent, specContentPath, pySubscriptStr, pySubscriptNat, h, List.get?]
          | str s2 =>
            simp [extractContent, specContentPath, pySubscriptStr, pySubscriptNat, h, List.get?]
          | arr zs =>
            simp [extractContent, specContentPath, pySubscriptStr, pySubscriptNat, h, List.get?]
          | obj mfields =>
            cases h2 : jsonField mfields "message" with
            | none =>
              simp [extractContent, specContentPath, pySubscriptStr, pySubscriptNat, h,
                h2, List.get?]
            | some m =>
              cases m <;>
                simp [extractContent, specContentPath, pySubscriptStr, pySubscriptNat, h,
                  h2, List.get?]

/-- Claim C1: whatever the behaviour of `exec`, an exception raised during
evaluation or during instantiation of the entry point is caught by
`run_game` and written to the output slot as
`Error running code: ` followed by the stringified exception, with the
rest of the state (the mounted view included) untouched; the function
returns normally, so a subsequent run of a valid artifact still mounts. -/
theorem run_game_catches_exceptions :
    (∀ (E : PyExec) (s : AppState) (e : String),
        s.code_display ≠ "" →
        E.eval s.code_display [] = Except.error e →
        run_game E s = { s with code_display := "Error running code: " ++ e }) ∧
    (∀ (E : PyExec) (s : AppState) (ns : List (String × PyObj))
        (cls : PyObj) (e : String),
        s.code_display ≠ "" →
        E.eval s.code_display [] = Except.ok ns →
        nsLookup ns "GeneratedGameWidget" = some cls →
        E.instantiate cls = Except.error e →
        run_game E s = { s with code_display := "Error running code: " ++ e }) ∧
    (∀ (E : PyExec) (s : AppState) (t : String) (ns : List (String × PyObj))
        (cls w : PyObj),
        t ≠ "" →
        E.eval t [] = Except.ok ns →
        nsLookup ns "GeneratedGameWidget" = some cls →
        E.instantiate cls = Except.ok w →
        run_game E { run_game E s with code_display := t } =
          { run_game E s with code_display := t, view := AppView.game w }) := by
  refine ⟨?_, ?_, ?_⟩
  · intro E s e h hE
    simp [run_game, h, hE]
  · intro E s ns cls e h hE hL hI
    simp [run_game, h, hE, hL, hI]
  · intro E s t ns cls w ht hE hL hI
    simp [run_game, ht, hE, hL, hI]

/-- Witness for claim C1: under the concrete semantics, running the
raising artifact writes the converted message and changes nothing else. -/
theorem run_game_catches_exceptions_witness :
    run_game demoExec sBoom =
      { sBoom with code_display := "Error running code: RuntimeError" } :=
  run_game_catches_exceptions.1 demoExec sBoom "RuntimeError" (by decide) rfl

/-- Claim C2 (code bug): the `on_failure` message is one constant string;
it never contains the HTTP status or any part of the response body,
because the source omits the `f` prefix on its format-looking literal. -/
theorem on_failure_constant_message :
    on_failure "UrlRequest https://api.x.ai/v1/chat/completions status 500"
        "Internal Server Error" =
      "Error: API request failed\n\nreq: \x7breq\x7d\n\nresult: \x7bresult\x7d" ∧
    on_failure "UrlRequest https://api.x.ai/v1/chat/completions status 500"
        "Internal Server Error" =
      on_failure "UrlRequest https://api.x.ai/v1/chat/completions status 404"
        "Not Found" :=
  ⟨rfl, rfl⟩

/-- Claim C3: whenever the stripped API key and the stripped prompt are
both non-empty, `generate_code` sends exactly the spec formula
`trim(trim(prefix) + " " + trim(body) + " " + trim(suffix))`, and on
`("", "Build a snake game", "")` that formula gives exactly
`Build a snake game`. -/
theorem generate_code_composition (s : AppState)
    (hk : pyStrip s.api_key_input ≠ "") (hb : pyStrip s.prompt_input ≠ "") :
    generate_code s =
      GenAction.request
        (composeSpec s.prefix_input s.prompt_input s.suffix_input)
        (pyStrip s.api_key_input) ∧
    composeSpec "" "Build a snake game" "" = "Build a snake game" := by
  constructor
  · simp [generate_code, composeSpec, hk, hb]
  · rfl

/-- Witness for claim C3: the concrete state with empty prefix and suffix
and prompt `Build a snake game` requests exactly that text. -/
theorem generate_code_composition_witness :
    generate_code sGood = GenAction.request "Build a snake game" "xai-key" :=
  ((generate_code_composition sGood (by decide) (by decide)).1).trans (by rfl)

/-- Claim C4: a 2xx body resolves to success with the content at
`choices[0].message.content` when that path exists, and to the parse
error otherwise; the two outcomes are mutually exclusive. -/
theorem on_success_two_outcomes (result : Json) :
    (∀ c, specContentPath result = some c →
        on_success result = CompletionOutcome.success c) ∧
    (specContentPath result = none →
        on_success result = CompletionOutcome.parseError) ∧
    ¬ (on_success result = CompletionOutcome.parseError ∧
        ∃ c, on_success result = CompletionOutcome.success c) := by
  refine ⟨?_, ?_, ?_⟩
  · intro c hc
    unfold on_success
    rw [extractContent_eq_spec, hc]
  · intro hc
    unfold on_success
    rw [extractContent_eq_spec, hc]
  · rintro ⟨h1, c, h2⟩
    rw [h1] at h2
    exact CompletionOutcome.noConfusion h2

/-- Witness for claim C4: the sample body from the spec resolves to
success with content `X`. -/
theorem on_success_two_outcomes_witness :
    on_success exampleBody = CompletionOutcome.success (Json.str "X") :=
  (on_success_two_outcomes exampleBody).1 (Json.str "X") rfl

/-- Claim C5: the outcome of a run is a function of the artifact text
alone (each call evaluates in a fresh empty namespace), so a run that
mounts leaves the artifact text unchanged, a second run of the same text
takes the same mount action, and the state after two runs equals the
state after one — nothing leaks from the first evaluation. -/
theorem run_game_fresh_namespace :
    (∀ (E : PyExec) (s1 s2 : AppState),
        s1.code_display = s2.code_display →
        run_action E s1.code_display = run_action E s2.code_display) ∧
    (∀ (E : PyExec) (s : AppState) (w : PyObj),
        run_action E s.code_display = RunAction.mount w →
        run_game E s = { s with view := AppView.game w } ∧
        (run_game E s).code_display = s.code_display ∧
        run_action E (run_game E s).code_display = RunAction.mount w ∧
        run_game E (run_game E s) = { s with view := AppView.game w }) := by
  constructor
  · intro E s1 s2 h
    rw [h]
  · intro E s w h
    have h1 : run_game E s = { s with view := AppView.game w } := by
      rw [run_game_eq_apply_action, h]
      rfl
    have h2 : (run_game E s).code_display = s.code_display := by
      rw [h1]
    have h3 : run_action E (run_game E s).code_display = RunAction.mount w := by
      rw [h2, h]
    refine ⟨h1, h2, h3, ?_⟩
    rw [run_game_eq_apply_action, h3, h1]
    rfl

/-- Witness for claim C5: running the valid artifact twice under the
concrete semantics yields the same mounted state as running it once. -/
theorem run_game_fresh_namespace_witness :
    run_game demoExec (run_game demoExec sGood) =
      { sGood with view := AppView.game (PyObj.mk "widget-instance") } :=
  (run_game_fresh_namespace.2 demoExec sGood (PyObj.mk "widget-instance")
    (by rfl)).2.2.2

/-- Claim C6: after a successful evaluation, a namespace without
`GeneratedGameWidget` produces the missing-entry-point message and mounts
nothing, while a namespace with it has the symbol invoked with no
arguments and the resulting instance mounted in place of the current
view. -/
theorem run_game_entry_point :
    (∀ (E : PyExec) (s : AppState) (ns : List (String × PyObj)),
        s.code_display ≠ "" →
        E.eval s.code_display [] = Except.ok ns →
        nsLookup ns "GeneratedGameWidget" = none →
        run_game E s =
          { s with code_display :=
              "Error: Generated code does not define GeneratedGameWidget" }) ∧
    (∀ (E : PyExec) (s : AppState) (ns : List (String × PyObj)) (cls w : PyObj),
        s.code_display ≠ "" →
        E.eval s.code_display [] = Except.ok ns →
        nsLookup ns "GeneratedGameWidget" = some cls →
        E.instantiate cls = Except.ok w →
        run_game E s = { s with view := AppView.game w }) := by
  constructor
  · intro E s ns h hE hL
    simp [run_game, h, hE, hL]
  · intro E s ns cls w h hE hL hI
    simp [run_game, h, hE, hL, hI]

/-- Witness for claim C6: a concrete artifact without the entry point
fails with the fixed message, and the valid artifact mounts an instance. -/
theorem run_game_entry_point_witness :
    run_game demoExec sNoEntry =
      { sNoEntry with code_display :=
          "Error: Generated code does not define GeneratedGameWidget" } ∧
    run_game demoExec sGood =
      { sGood with view := AppView.game (PyObj.mk "widget-instance") } :=
  ⟨run_game_entry_point.1 demoExec sNoEntry [] (by decide) rfl rfl,
   run_game_entry_point.2 demoExec sGood
     [("GeneratedGameWidget", PyObj.mk "GeneratedGameWidget")]
     (PyObj.mk "GeneratedGameWidget") (PyObj.mk "widget-instance")
     (by decide) rfl rfl rfl⟩

/-- Claim C7: with a non-empty credential, a whitespace-only prompt makes
`generate_code` fail with the empty-body message whatever the prefix and
suffix are, and no request is issued; when the prompt is non-empty the
request is always issued, so prefix or suffix emptiness is never an
error. -/
theorem generate_code_empty_body :
    (∀ s : AppState,
        pyStrip s.api_key_input ≠ "" → pyStrip s.prompt_input = "" →
        generate_code s = GenAction.err "Error: Please enter a prompt") ∧
    (∀ s : AppState,
        pyStrip s.api_key_input ≠ "" → pyStrip s.prompt_input ≠ "" →
        generate_code s =
          GenAction.request
            (pyStrip (pyStrip s.prefix_input ++ " " ++ pyStrip s.prompt_input ++
              " " ++ pyStrip s.suffix_input))
            (pyStrip s.api_key_input)) := by
  constructor
  · intro s hk hb
    simp [generate_code, hk, hb]
  · intro s hk hb
    simp [generate_code, hk, hb]

/-- Witness for claim C7: a whitespace-only prompt with a valid key and
non-empty prefix and suffix yields the empty-body error. -/
theorem generate_code_empty_body_witness :
    generate_code sEmptyBody = GenAction.err "Error: Please enter a prompt" :=
  generate_code_empty_body.1 sEmptyBody (by decide) (by decide)

/-- Claim C8: with an empty artifact slot, `run_game` writes the
no-valid-code message and the result does not depend on the execution
semantics at all — evaluation is never reached. -/
theorem run_game_empty_artifact (E Eh : PyExec) (s : AppState)
    (h : s.code_display = "") :
    run_game E s = { s with code_display := "Error: No valid code to run" } ∧
    run_game E s = run_game Eh s := by
  constructor
  · simp [run_game, h]
  · simp [run_game, h]

/-- Witness for claim C8: the empty artifact state fails identically
under the demo semantics and under an always-raising semantics. -/
theorem run_game_empty_artifact_witness :
    run_game demoExec sEmptyArtifact =
      { sEmptyArtifact with code_display := "Error: No valid code to run" } ∧
    run_game demoExec sEmptyArtifact = run_game strictExec sEmptyArtifact :=
  run_game_empty_artifact demoExec strictExec sEmptyArtifact (by rfl)

/-- Claim C9: a whitespace-only API key makes `generate_code` fail with
the credential message and send nothing, whatever the prompt, prefix and
suffix are — in particular this check precedes the empty-body check. -/
theorem generate_code_empty_key (s : AppState)
    (h : pyStrip s.api_key_input = "") :
    generate_code s = GenAction.err "Error: Please provide an API key" := by
  simp [generate_code, h]

/-- Witness for claim C9: with both the key and the prompt empty, the
credential error wins. -/
theorem generate_code_empty_key_witness :
    generate_code sNoKey = GenAction.err "Error: Please provide an API key" :=
  generate_code_empty_key sNoKey (by decide)

/-- Claim C10: on every failing run the mounted view is unchanged and the
whole state change is one write to the output slot; the view is replaced
(and the output slot untouched) only on the success path. -/
theorem run_game_frame (E : PyExec) (s : AppState) :
    (runFailsB E s = true →
        (run_game E s).view = s.view ∧
        ∃ msg, run_game E s = { s with code_display := msg }) ∧
    (runFailsB E s = false →
        ∃ w, run_game E s = { s with view := AppView.game w } ∧
          (run_game E s).code_display = s.code_display) := by
  have hb := run_game_eq_apply_action E s
  cases hr : run_action E s.code_display with
  | failure msg =>
    rw [hr] at hb
    constructor
    · intro _
      refine ⟨?_, msg, ?_⟩
      · rw [hb]
        rfl
      · rw [hb]
        rfl
    · intro hf
      exfalso
      have hT : runFailsB E s = true := by
        unfold runFailsB
        rw [hr]
      rw [hT] at hf
      exact Bool.noConfusion hf
  | mount w =>
    rw [hr] at hb
    constructor
    · intro hf
      exfalso
      have hF : runFailsB E s = false := by
        unfold runFailsB
        rw [hr]
      rw [hF] at hf
      exact Bool.noConfusion hf
    · intro _
      refine ⟨w, ?_, ?_⟩
      · rw [hb]
        rfl
      · rw [hb]
        rfl

/-- Witness for claim C10: the raising artifact fails, leaves the view in
place and only rewrites the output slot. -/
theorem run_game_frame_witness :
    (run_game demoExec sBoom).view = sBoom.view ∧
    ∃ msg, run_game demoExec sBoom = { sBoom with code_display := msg } :=
  (run_game_frame demoExec sBoom).1 (by rfl)
